import Mathlib

/-!
Verification of the gesture-controlled Christmas-tree scene.

This file shallowly embeds the core logic of the repository:

* the per-frame hand-gesture classifier and the debounced mode-transition
  state machine from `src/components/HandController.tsx` (`renderLoop`),
* the application-level mode/photo handlers from `src/App.tsx`
  (`handleModeChange`, `handlePhotoClick`, `handleDeletePhoto`),
* the choreography math from `src/components/TreeParticles.tsx`
  (`calculateSpiralConstruction`, the per-frame stardust and bulb update
  loops with their density-based active counts and lerp/snap updates).

Discrete logic (modes, timestamps, landmark coordinates, photo lists) is
embedded over `ℚ`/`ℕ` so that it stays executable; the continuous
choreography math (trigonometry, square roots) is embedded over `ℝ`.
-/

namespace ChristmasTree

/-- Application modes, from `src/unnamed/part_000` (`enum AppMode`). -/
inductive AppMode where
  | TREE
  | SCATTER
  | PHOTO_ZOOM
deriving DecidableEq, Repr

/-- One hand landmark; the classifier in `renderLoop` only reads the `x` and
`y` coordinates of each landmark. Coordinates live in normalized camera
space. -/
structure Landmark where
  x : ℚ
  y : ℚ

/-- A detected hand: the 21 MediaPipe hand landmarks, indexed as in the
source (`landmarks[0]` is the wrist, `landmarks[4]` the thumb tip,
`landmarks[8]` the index tip, and so on). -/
def Hand : Type := Fin 21 → Landmark

/-- Squared 2D distance between two landmarks, as computed inline in
`renderLoop`: `(tip.x - wrist.x)**2 + (tip.y - wrist.y)**2`. -/
def sqDist (a b : Landmark) : ℚ :=
  (a.x - b.x) ^ 2 + (a.y - b.y) ^ 2

/-- Fingertip landmark indices used by the classifier:
`const tips = [8, 12, 16, 20]`. -/
def tipIdxs : List (Fin 21) := [8, 12, 16, 20]

/-- Middle-joint (PIP) landmark indices used by the classifier:
`const pips = [6, 10, 14, 18]`. -/
def pipIdxs : List (Fin 21) := [6, 10, 14, 18]

/-- Whether one finger counts as curled, from the loop body in `renderLoop`:
`if (distTip < distPip * 1.2) curledFingers++`, where both distances are
squared distances from the wrist (`landmarks[0]`).  `1.2 = 6/5`. -/
def fingerCurled (h : Hand) (tip pip : Fin 21) : Bool :=
  decide (sqDist (h tip) (h 0) < sqDist (h pip) (h 0) * (6 / 5))

/-- Number of curled fingers (`curledFingers` in `renderLoop`): the count
over the four tip/pip pairs. -/
def curledFingers (h : Hand) : ℕ :=
  (List.zip tipIdxs pipIdxs).countP (fun tp => fingerCurled h tp.1 tp.2)

/-- Fist classification: `const isFist = curledFingers >= 4`. -/
def isFist (h : Hand) : Bool :=
  decide (4 ≤ curledFingers h)

/-- Squared thumb-tip/index-tip distance.  The source computes the Euclidean
distance `pinchDist = Math.sqrt((thumbTip.x - indexTip.x)**2 + ...)` and
compares it with `0.05`; we keep the square-root-free square, and prove in
`gesture_classifier_correct` that comparing it with `(1/20)^2 = 1/400` is
equivalent to the source's comparison of the square root with `0.05`. -/
def pinchSqDist (h : Hand) : ℚ :=
  ((h 4).x - (h 8).x) ^ 2 + ((h 4).y - (h 8).y) ^ 2

/-- Pinch classification: `const isPinching = pinchDist < 0.05 && !isFist`. -/
def isPinching (h : Hand) : Bool :=
  decide (pinchSqDist h < 1 / 400) && !isFist h

/-- Open-palm classification: `const isOpen = curledFingers <= 1`. -/
def isOpen (h : Hand) : Bool :=
  decide (curledFingers h ≤ 1)

/-- One classified video frame fed to the debounced mode switch: the
`requestAnimationFrame` timestamp (milliseconds) together with that frame's
classification booleans. -/
structure GestureFrame where
  timestamp : ℚ
  isFist : Bool
  isPinching : Bool
  isOpen : Bool

/-- The priority-ordered transition table from `renderLoop` (the
`if / else if / else if` chain computing `nextMode` from `current`). -/
def nextModeOf (fist pinch opn : Bool) (current : AppMode) : AppMode :=
  if fist = true ∧ current ≠ AppMode.TREE then AppMode.TREE
  else if pinch = true ∧ current = AppMode.SCATTER then AppMode.PHOTO_ZOOM
  else if opn = true ∧ pinch = false ∧
      (current = AppMode.PHOTO_ZOOM ∨ current = AppMode.TREE) then AppMode.SCATTER
  else current

/-- State of the debounced mode switch: the current mode (`modeRef.current`)
and the timestamp of the last accepted transition
(`lastGestureChangeTime`, initialized to `0`). -/
structure MachineState where
  mode : AppMode
  lastGestureChangeTime : ℚ
deriving DecidableEq

/-- One step of the debounced mode switch in `renderLoop`:
the body guarded by `if (timestamp - lastGestureChangeTime > 800)`.
Returns the new state and whether a transition was accepted
(`nextMode !== current`, which triggers `onModeChange` and
`lastGestureChangeTime = timestamp`). -/
def gestureStep (s : MachineState) (f : GestureFrame) : MachineState × Bool :=
  if 800 < f.timestamp - s.lastGestureChangeTime then
    let next := nextModeOf f.isFist f.isPinching f.isOpen s.mode
    if next ≠ s.mode then (⟨next, f.timestamp⟩, true) else (s, false)
  else (s, false)

/-- Timestamps of the accepted transitions when the machine consumes a
sequence of classified frames. -/
def acceptedTimes (s : MachineState) : List GestureFrame → List ℚ
  | [] => []
  | f :: fs =>
    if (gestureStep s f).2 then f.timestamp :: acceptedTimes (gestureStep s f).1 fs
    else acceptedTimes (gestureStep s f).1 fs

theorem gestureStep_not_accepted (s : MachineState) (f : GestureFrame)
    (h : (gestureStep s f).2 = false) : (gestureStep s f).1 = s := by
  by_cases h1 : 800 < f.timestamp - s.lastGestureChangeTime
  · by_cases h2 : nextModeOf f.isFist f.isPinching f.isOpen s.mode = s.mode
    · simp [gestureStep, h1, h2]
    · simp [gestureStep, h1, h2] at h
  · simp [gestureStep, h1]

theorem gestureStep_accepted_gap (s : MachineState) (f : GestureFrame)
    (h : (gestureStep s f).2 = true) :
    800 < f.timestamp - s.lastGestureChangeTime ∧
      (gestureStep s f).1.lastGestureChangeTime = f.timestamp := by
  by_cases h1 : 800 < f.timestamp - s.lastGestureChangeTime
  · by_cases h2 : nextModeOf f.isFist f.isPinching f.isOpen s.mode = s.mode
    · simp [gestureStep, h1, h2] at h
    · exact ⟨h1, by simp [gestureStep, h1, h2]⟩
  · simp [gestureStep, h1] at h

theorem acceptedTimes_lower_bound (fs : List GestureFrame) :
    ∀ s : MachineState, ∀ t ∈ acceptedTimes s fs,
      s.lastGestureChangeTime + 800 < t := by
  induction fs with
  | nil => intro s t ht; simp [acceptedTimes] at ht
  | cons f fs ih =>
    intro s t ht
    rw [acceptedTimes] at ht
    by_cases hacc : (gestureStep s f).2 = true
    · rw [if_pos hacc] at ht
      obtain ⟨hgap, hlast⟩ := gestureStep_accepted_gap s f hacc
      rcases List.mem_cons.mp ht with rfl | htail
      · linarith
      · have := ih (gestureStep s f).1 t htail
        rw [hlast] at this
        linarith
    · rw [Bool.not_eq_true] at hacc
      rw [if_neg (by simp [hacc]), gestureStep_not_accepted s f hacc] at ht
      exact ih s t ht

theorem acceptedTimes_pairwise (fs : List GestureFrame) :
    ∀ s : MachineState,
      (acceptedTimes s fs).Pairwise (fun a b => 800 < b - a) := by
  induction fs with
  | nil => intro s; simp [acceptedTimes]
  | cons f fs ih =>
    intro s
    rw [acceptedTimes]
    by_cases hacc : (gestureStep s f).2 = true
    · rw [if_pos hacc]
      refine List.Pairwise.cons ?_ (ih (gestureStep s f).1)
      intro t ht
      have hlb := acceptedTimes_lower_bound fs (gestureStep s f).1 t ht
      rw [(gestureStep_accepted_gap s f hacc).2] at hlb
      linarith
    · rw [Bool.not_eq_true] at hacc
      rw [if_neg (by simp [hacc]), gestureStep_not_accepted s f hacc]
      exact ih s

/-- C1: over any input sequence of classified frames, the timestamps of any
two accepted transitions are more than 800ms apart (hence never less than
800ms apart); a step that accepts no transition (in particular, a frame
matching no transition rule) leaves both the mode and the debounce timer
(`lastGestureChangeTime`) unchanged. -/
theorem debounce_policy_correct (s₀ : MachineState) (fs : List GestureFrame) :
    (acceptedTimes s₀ fs).Pairwise (fun a b => 800 < b - a) ∧
    (∀ s f, (gestureStep s f).2 = false → (gestureStep s f).1 = s) ∧
    (∀ s f, nextModeOf f.isFist f.isPinching f.isOpen s.mode = s.mode →
      gestureStep s f = (s, false)) := by
  refine ⟨acceptedTimes_pairwise fs s₀, gestureStep_not_accepted, ?_⟩
  intro s f hmatch
  by_cases h1 : 800 < f.timestamp - s.lastGestureChangeTime
  · simp [gestureStep, h1, hmatch]
  · simp [gestureStep, h1]

/-- C1 witness: a concrete three-frame run.  Frames at timestamps 100, 900
and 1701 in mode `TREE`: the open-palm frame at 900 is accepted
(`TREE → SCATTER`), the fist frame at 1701 is accepted (back to `TREE`),
and the accepted timestamps 900 and 1701 are more than 800ms apart. -/
theorem debounce_policy_witness :
    acceptedTimes ⟨AppMode.TREE, 0⟩
        [⟨100, false, false, true⟩, ⟨900, false, false, true⟩,
         ⟨1701, true, false, false⟩] = [900, 1701] ∧
    (acceptedTimes ⟨AppMode.TREE, 0⟩
        [⟨100, false, false, true⟩, ⟨900, false, false, true⟩,
         ⟨1701, true, false, false⟩]).Pairwise (fun a b => 800 < b - a) := by
  refine ⟨?_, (debounce_policy_correct ⟨AppMode.TREE, 0⟩ _).1⟩
  have s1 : gestureStep ⟨AppMode.TREE, 0⟩ ⟨100, false, false, true⟩ =
      (⟨AppMode.TREE, 0⟩, false) := by
    simp [gestureStep, nextModeOf]
    norm_num
  have s2 : gestureStep ⟨AppMode.TREE, 0⟩ ⟨900, false, false, true⟩ =
      (⟨AppMode.SCATTER, 900⟩, true) := by
    simp [gestureStep, nextModeOf]
    norm_num
  have s3 : gestureStep ⟨AppMode.SCATTER, 900⟩ ⟨1701, true, false, false⟩ =
      (⟨AppMode.TREE, 1701⟩, true) := by
    simp [gestureStep, nextModeOf]
    norm_num
  rw [acceptedTimes, s1]
  rw [show ((⟨AppMode.TREE, (0 : ℚ)⟩, false) : MachineState × Bool).2 = false from
    rfl]
  rw [acceptedTimes, s2]
  rw [acceptedTimes, s3]
  simp [acceptedTimes]

/-- C2: once the debounce window has elapsed, the mode after a step is
given by the strict priority table: (1) fist away from `TREE` goes to
`TREE`; else (2) pinch in `SCATTER` goes to `PHOTO_ZOOM`; else (3) open
palm without pinch in `PHOTO_ZOOM` or `TREE` goes to `SCATTER`; otherwise
the mode is unchanged.  Moreover a pinch-classified frame in mode `TREE`
produces no transition, and any transition into `SCATTER` from another mode
requires the pinch flag to be false. -/
theorem transition_table_correct :
    (∀ (s : MachineState) (f : GestureFrame),
      800 < f.timestamp - s.lastGestureChangeTime →
      (gestureStep s f).1.mode =
        (if f.isFist = true ∧ s.mode ≠ AppMode.TREE then AppMode.TREE
         else if f.isPinching = true ∧ s.mode = AppMode.SCATTER then
           AppMode.PHOTO_ZOOM
         else if f.isOpen = true ∧ f.isPinching = false ∧
             (s.mode = AppMode.PHOTO_ZOOM ∨ s.mode = AppMode.TREE) then
           AppMode.SCATTER
         else s.mode)) ∧
    (∀ fist opn : Bool, nextModeOf fist true opn AppMode.TREE = AppMode.TREE) ∧
    (∀ (fist pinch opn : Bool) (m : AppMode),
      nextModeOf fist pinch opn m = AppMode.SCATTER → m ≠ AppMode.SCATTER →
      pinch = false) := by
  refine ⟨?_, ?_, ?_⟩
  · intro s f h1
    show (gestureStep s f).1.mode = nextModeOf f.isFist f.isPinching f.isOpen s.mode
    by_cases h2 : nextModeOf f.isFist f.isPinching f.isOpen s.mode = s.mode
    · simp [gestureStep, h1, h2]
    · simp [gestureStep, h1, h2]
  · intro fist opn
    cases fist <;> cases opn <;> decide
  · intro fist pinch opn m hnext hm
    cases fist <;> cases pinch <;> cases opn <;> cases m <;> first
      | rfl
      | simp_all [nextModeOf]

/-- C2 witness: in mode `SCATTER` with an elapsed debounce window, a
pinching frame moves the machine to `PHOTO_ZOOM`, as rule (2) states. -/
theorem transition_table_witness :
    (gestureStep ⟨AppMode.SCATTER, 0⟩ ⟨1000, false, true, false⟩).1.mode =
      AppMode.PHOTO_ZOOM := by
  have h := transition_table_correct.1 ⟨AppMode.SCATTER, 0⟩
    ⟨1000, false, true, false⟩ (by norm_num)
  rw [h]
  decide

/-- C3: the gesture classifier is a pure function of the landmarks with:
a finger curled exactly when its squared wrist-to-tip distance is below
`1.2` times the squared wrist-to-PIP distance; `isFist` exactly when at
least 4 of the 4 fingers are curled; `isOpen` exactly when at most 1 finger
is curled; and `isPinching` exactly when the Euclidean thumb-tip/index-tip
distance is below `0.05` and the hand is not a fist. -/
theorem gesture_classifier_correct (h : Hand) :
    (∀ tip pip : Fin 21, fingerCurled h tip pip = true ↔
      sqDist (h tip) (h 0) < (6 / 5) * sqDist (h pip) (h 0)) ∧
    (isFist h = true ↔ 4 ≤ curledFingers h) ∧
    (isOpen h = true ↔ curledFingers h ≤ 1) ∧
    (isPinching h = true ↔
      Real.sqrt ((pinchSqDist h : ℚ) : ℝ) < 0.05 ∧ isFist h = false) := by
  refine ⟨?_, ?_, ?_, ?_⟩
  · intro tip pip
    rw [fingerCurled, decide_eq_true_iff, mul_comm]
  · rw [isFist, decide_eq_true_iff]
  · rw [isOpen, decide_eq_true_iff]
  · have hsqrt : Real.sqrt ((pinchSqDist h : ℚ) : ℝ) < 0.05 ↔
        pinchSqDist h < 1 / 400 := by
      rw [Real.sqrt_lt' (by norm_num : (0 : ℝ) < 0.05)]
      rw [show ((0.05 : ℝ) ^ 2) = ((1 / 400 : ℚ) : ℝ) by norm_num]
      exact_mod_cast Iff.rfl
    rw [isPinching, Bool.and_eq_true, decide_eq_true_iff, Bool.not_eq_true']
    rw [hsqrt]

theorem curledFingers_constHand :
    curledFingers (fun _ => ⟨0, 0⟩ : Hand) = 0 := by
  norm_num [curledFingers, tipIdxs, pipIdxs, fingerCurled, sqDist,
    List.countP_cons]

/-- C3 witness: the all-zero hand has no curled finger (so it is open, not
a fist) and a zero pinch distance, so it is classified as pinching. -/
theorem gesture_classifier_witness :
    isOpen (fun _ => ⟨0, 0⟩ : Hand) = true ∧
    isPinching (fun _ => ⟨0, 0⟩ : Hand) = true := by
  have hfist : isFist (fun _ => ⟨0, 0⟩ : Hand) = false := by
    simp [isFist, curledFingers_constHand]
  constructor
  · exact (gesture_classifier_correct (fun _ => ⟨0, 0⟩)).2.2.1.mpr
      (by rw [curledFingers_constHand]; norm_num)
  · refine (gesture_classifier_correct (fun _ => ⟨0, 0⟩)).2.2.2.mpr ⟨?_, hfist⟩
    have hzero : pinchSqDist (fun _ => ⟨0, 0⟩ : Hand) = 0 := by
      norm_num [pinchSqDist]
    rw [hzero]
    norm_num [Real.sqrt_zero]

/-- One photo, from `src/unnamed/part_000` (`interface PhotoData`). -/
structure PhotoData where
  id : String
  url : String
deriving DecidableEq

/-- Application-level state held by `App` in `src/App.tsx`: the mode, the
photo list and the current photo index.  `currentPhotoIndex` starts at `0`
and is only ever assigned non-negative values in the source, so it is
modelled as a natural number. -/
structure AppState where
  mode : AppMode
  photos : List PhotoData
  currentPhotoIndex : ℕ
deriving DecidableEq

/-- The `handleModeChange` callback in `src/App.tsx`: sets the mode to
`newMode` and, when entering `PHOTO_ZOOM` from a different mode with a
non-empty photo list, advances `currentPhotoIndex` circularly by one
(`(prev + 1) % photos.length`). -/
def handleModeChange (newMode : AppMode) (s : AppState) : AppState :=
  if newMode = AppMode.PHOTO_ZOOM ∧ s.mode ≠ AppMode.PHOTO_ZOOM then
    if 0 < s.photos.length then
      { s with mode := newMode,
               currentPhotoIndex := (s.currentPhotoIndex + 1) % s.photos.length }
    else { s with mode := newMode }
  else { s with mode := newMode }

/-- C4: the mode setter advances the photo index by exactly one modulo the
list length exactly when the requested mode is `PHOTO_ZOOM`, the previous
mode is not `PHOTO_ZOOM`, and the list is non-empty; otherwise (in
particular on an empty list) the index is unchanged and the operation
succeeds.  Entering `PHOTO_ZOOM` from `TREE` with list `[A, B, C]` and
index `0` yields index `1`. -/
theorem handleModeChange_correct (newMode : AppMode) (s : AppState) :
    (handleModeChange newMode s).mode = newMode ∧
    (handleModeChange newMode s).photos = s.photos ∧
    (handleModeChange newMode s).currentPhotoIndex =
      (if newMode = AppMode.PHOTO_ZOOM ∧ s.mode ≠ AppMode.PHOTO_ZOOM ∧
          s.photos ≠ [] then
        (s.currentPhotoIndex + 1) % s.photos.length
      else s.currentPhotoIndex) ∧
    (handleModeChange AppMode.PHOTO_ZOOM
        ⟨AppMode.TREE, [⟨"A", "a"⟩, ⟨"B", "b"⟩, ⟨"C", "c"⟩], 0⟩).currentPhotoIndex
      = 1 := by
  refine ⟨?_, ?_, ?_, ?_⟩
  · unfold handleModeChange
    split_ifs <;> rfl
  · unfold handleModeChange
    split_ifs <;> rfl
  · unfold handleModeChange
    rcases Decidable.em (newMode = AppMode.PHOTO_ZOOM ∧ s.mode ≠ AppMode.PHOTO_ZOOM)
      with hz | hz
    · rcases Decidable.em (s.photos = []) with he | he
      · simp [hz, he]
      · have hlen : 0 < s.photos.length := List.length_pos.mpr he
        simp [hz, he, hlen]
    · have : ¬(newMode = AppMode.PHOTO_ZOOM ∧ s.mode ≠ AppMode.PHOTO_ZOOM ∧
          s.photos ≠ []) := fun ⟨h1, h2, _⟩ => hz ⟨h1, h2⟩
      simp [hz, this]
  · simp [handleModeChange]

/-- The `handlePhotoClick` callback in `src/App.tsx`: looks up the clicked
photo id with `findIndex`; when found it sets `currentPhotoIndex` to that
position and calls `setMode(AppMode.PHOTO_ZOOM)` directly (not through
`handleModeChange`), so no debounce check and no index advance happen; when
the id is absent (`findIndex` returned `-1`) nothing changes. -/
def handlePhotoClick (pid : String) (s : AppState) : AppState :=
  match s.photos.findIdx? (fun p => p.id == pid) with
  | some idx => { s with mode := AppMode.PHOTO_ZOOM, currentPhotoIndex := idx }
  | none => s

/-- C9: clicking a photo whose id occurs in the list sets the index to the
position of that id and the mode directly to `PHOTO_ZOOM` — the resulting
index is the found position itself, not the advanced index the gesture
setter would produce, and the mode is set with no debounce-timer condition;
clicking an id that is not in the list changes nothing. -/
theorem handlePhotoClick_correct (pid : String) (s : AppState) :
    (s.photos.findIdx? (fun p => p.id == pid) = none →
      handlePhotoClick pid s = s) ∧
    (∀ i, s.photos.findIdx? (fun p => p.id == pid) = some i →
      handlePhotoClick pid s =
        { s with mode := AppMode.PHOTO_ZOOM, currentPhotoIndex := i }) := by
  constructor
  · intro h
    unfold handlePhotoClick
    rw [h]
  · intro i h
    unfold handlePhotoClick
    rw [h]

/-- C9 witness: with photos `[A, B]` and current index `5`, clicking `"B"`
finds position `1` and produces mode `PHOTO_ZOOM` with index `1`. -/
theorem handlePhotoClick_witness :
    handlePhotoClick "B" ⟨AppMode.TREE, [⟨"A", "a"⟩, ⟨"B", "b"⟩], 5⟩ =
      ⟨AppMode.PHOTO_ZOOM, [⟨"A", "a"⟩, ⟨"B", "b"⟩], 1⟩ := by
  have h := (handlePhotoClick_correct "B"
    ⟨AppMode.TREE, [⟨"A", "a"⟩, ⟨"B", "b"⟩], 5⟩).2 1 (by rfl)
  simpa using h

/-- The `handleDeletePhoto` callback in `src/App.tsx`: removes every photo
with the given id and, if the current index is at or past the end of the
shrunk list, clamps it to `Math.max(0, updatedPhotos.length - 1)` (which
over `ℕ` is the truncated subtraction `updatedPhotos.length - 1`). -/
def handleDeletePhoto (pid : String) (s : AppState) : AppState :=
  let updatedPhotos := s.photos.filter (fun p => !(p.id == pid))
  { s with
    photos := updatedPhotos,
    currentPhotoIndex :=
      if updatedPhotos.length ≤ s.currentPhotoIndex then updatedPhotos.length - 1
      else s.currentPhotoIndex }

/-- C10: after any deletion the current photo index satisfies
`0 ≤ index ≤ max 0 (photos.length - 1)` over the integers: deletion can
never leave the index pointing past the end of the remaining list. -/
theorem handleDeletePhoto_index_clamped (pid : String) (s : AppState) :
    0 ≤ ((handleDeletePhoto pid s).currentPhotoIndex : ℤ) ∧
    ((handleDeletePhoto pid s).currentPhotoIndex : ℤ) ≤
      max 0 (((handleDeletePhoto pid s).photos.length : ℤ) - 1) := by
  refine ⟨Int.ofNat_nonneg _, ?_⟩
  unfold handleDeletePhoto
  rcases Decidable.em
      ((s.photos.filter (fun p => !(p.id == pid))).length ≤ s.currentPhotoIndex)
    with hle | hlt
  · simp only [hle, if_pos]
    omega
  · simp only [hlt, if_neg, not_false_iff]
    push_neg at hlt
    omega

noncomputable section

/-- A three.js `Vector3`, embedded over the reals. -/
structure Vec3 where
  x : ℝ
  y : ℝ
  z : ℝ
deriving DecidableEq

/-- Pool size of the stardust particles (`const STARDUST_COUNT = 12000`). -/
def STARDUST_COUNT : ℕ := 12000

/-- Pool size of the bulbs (`const BULB_COUNT = 300`). -/
def BULB_COUNT : ℕ := 300

/-- Tree height (`const TREE_HEIGHT = 18`). -/
def TREE_HEIGHT : ℝ := 18

/-- Intro animation length in seconds (`const INTRO_DURATION = 4.0`). -/
def INTRO_DURATION : ℝ := 4

/-- The cubic ease-out helper from `TreeParticles.tsx`:
`const f = t - 1.0; return f * f * f + 1.0`. -/
def cubicOut (t : ℝ) : ℝ :=
  let f := t - 1
  f * f * f + 1

/-- JavaScript's `Math.atan2(y, x)`: the argument of the complex number
`x + y*i`. -/
def atan2 (y x : ℝ) : ℝ := Complex.arg ⟨x, y⟩

/-- The `calculateSpiralConstruction` function from `TreeParticles.tsx`.
The source writes the computed position into `outVec` and returns the
scale factor; here the pair (position, scale factor) is returned. -/
def calculateSpiralConstruction (finalPos : Vec3) (time : ℝ) : Vec3 × ℝ :=
  let normalizedHeight := (finalPos.y + TREE_HEIGHT / 2) / TREE_HEIGHT
  let startDelay := normalizedHeight * 1.8
  let travelDuration : ℝ := 1.8
  let p := (time - startDelay) / travelDuration
  if p < 0 then
    let waitAngle := time * 2.0 + normalizedHeight * 10.0
    (⟨Real.cos waitAngle * 5, -12, Real.sin waitAngle * 5⟩, 0)
  else if 1 < p then
    (finalPos, 1)
  else
    let ease := cubicOut p
    let startY : ℝ := -12.0
    let currentY := startY + (finalPos.y - startY) * ease
    let finalRadius := Real.sqrt (finalPos.x * finalPos.x + finalPos.z * finalPos.z)
    let startRadius := finalRadius * 1.5 + 8.0
    let currentRadius := startRadius + (finalRadius - startRadius) * ease
    let finalAngle := atan2 finalPos.z finalPos.x
    let totalSpins := Real.pi * 1.2
    let currentAngle := finalAngle - totalSpins * (1.0 - ease)
    (⟨currentRadius * Real.cos currentAngle, currentY,
      currentRadius * Real.sin currentAngle⟩, ease)

/-- A three.js `lerp` toward a target: `this += (target - this) * alpha`,
applied componentwise as in both per-frame loops. -/
def lerpV (pos target : Vec3) (alpha : ℝ) : Vec3 :=
  ⟨pos.x + (target.x - pos.x) * alpha,
   pos.y + (target.y - pos.y) * alpha,
   pos.z + (target.z - pos.z) * alpha⟩

/-- Squared distance between two positions, as in the stardust loop:
`(tx - currPos[ix])**2 + (ty - currPos[ix+1])**2 + (tz - currPos[ix+2])**2`. -/
def sqDist3 (a b : Vec3) : ℝ :=
  (a.x - b.x) ^ 2 + (a.y - b.y) ^ 2 + (a.z - b.z) ^ 2

/-- Euclidean distance (three.js `distanceTo`). -/
def dist3 (a b : Vec3) : ℝ := Real.sqrt (sqDist3 a b)

/-- The steady-state per-element position update of the stardust loop:
snap to the target if the squared distance exceeds `100`, else lerp with
the frame's lerp factor. -/
def stardustStepToward (pos target : Vec3) (lerpFactor : ℝ) : Vec3 :=
  if 100 < sqDist3 target pos then target else lerpV pos target lerpFactor

/-- The steady-state per-element position update of the bulb loop:
`if (d.currentPos.distanceTo(target) > 10) d.currentPos.copy(target);
else d.currentPos.lerp(target, lerpFactor);`. -/
def stepToward (pos target : Vec3) (lerpFactor : ℝ) : Vec3 :=
  if 10 < dist3 pos target then target else lerpV pos target lerpFactor

/-- One frame of the stardust update loop in `TreeParticles.tsx`'s
`useFrame` callback: positions indexed by element, tree and scatter targets
fixed per element.  Only indices below
`activeStardustCount = Math.floor(STARDUST_COUNT * density)` are visited by
the loop; the same count is passed to `setDrawRange` and is returned here as
the second component.  During the intro window the spiral-construction
position is used; afterwards the element lerps (or snaps) toward the mode's
target, where in `TREE` mode the x-coordinate of the target is jittered by
`Math.sin(time * 0.2 + ty * 0.5) * 0.05`. -/
def stardustFrame (mode : AppMode) (density : ℚ) (time delta : ℝ)
    (targetTree targetScatter pos : ℕ → Vec3) : (ℕ → Vec3) × ℕ :=
  let lerpFactor := delta * 1.5
  let isIntro := time < INTRO_DURATION
  let activeStardustCount := (⌊(STARDUST_COUNT : ℚ) * density⌋).toNat
  (fun i =>
    if i < activeStardustCount then
      if isIntro then (calculateSpiralConstruction (targetTree i) time).1
      else
        let target :=
          if mode = AppMode.TREE then
            ⟨(targetTree i).x +
                Real.sin (time * 0.2 + (targetTree i).y * 0.5) * 0.05,
              (targetTree i).y, (targetTree i).z⟩
          else targetScatter i
        stardustStepToward (pos i) target lerpFactor
    else pos i,
   activeStardustCount)

/-- One frame of the bulb update loop in `TreeParticles.tsx`'s `useFrame`
callback.  Only indices below
`activeBulbCount = Math.floor(BULB_COUNT * density)` are visited; the same
count is assigned to `bulbsRef.current.count` (the drawn instance count)
and is returned as the second component. -/
def bulbFrame (mode : AppMode) (density : ℚ) (time delta : ℝ)
    (treePos scatterPos pos : ℕ → Vec3) : (ℕ → Vec3) × ℕ :=
  let lerpFactor := delta * 1.5
  let isIntro := time < INTRO_DURATION
  let activeBulbCount := (⌊(BULB_COUNT : ℚ) * density⌋).toNat
  (fun i =>
    if i < activeBulbCount then
      if isIntro then (calculateSpiralConstruction (treePos i) time).1
      else
        let target := if mode = AppMode.TREE then treePos i else scatterPos i
        stepToward (pos i) target lerpFactor
    else pos i,
   activeBulbCount)

theorem sqrt_mul_cos_atan2 (x z : ℝ) :
    Real.sqrt (x * x + z * z) * Real.cos (atan2 z x) = x := by
  have habs : Real.sqrt (x * x + z * z) = Complex.abs ⟨x, z⟩ := by
    rw [Complex.abs_apply, Complex.normSq_mk]
  rw [atan2, habs]
  exact Complex.abs_mul_cos_arg ⟨x, z⟩

theorem sqrt_mul_sin_atan2 (x z : ℝ) :
    Real.sqrt (x * x + z * z) * Real.sin (atan2 z x) = z := by
  have habs : Real.sqrt (x * x + z * z) = Complex.abs ⟨x, z⟩ := by
    rw [Complex.abs_apply, Complex.normSq_mk]
  rw [atan2, habs]
  exact Complex.abs_mul_sin_arg ⟨x, z⟩

/-- C5: for an element whose final tree position has non-negative
normalized height (true of every element in the scene, whose `y` lies in
`[-TREE_HEIGHT/2, TREE_HEIGHT/2]` or just above it for the star), the
spiral-construction function returns scale-factor `0` at elapsed time `0`,
and for every elapsed time at least `startDelay + travelDuration`
(`normalizedHeight * 1.8 + 1.8`) it returns scale-factor exactly `1` with
the output position exactly the element's final tree position. -/
theorem spiral_construction_endpoints (finalPos : Vec3)
    (hy : 0 ≤ finalPos.y + TREE_HEIGHT / 2) :
    (calculateSpiralConstruction finalPos 0).2 = 0 ∧
    ∀ t : ℝ, ((finalPos.y + TREE_HEIGHT / 2) / TREE_HEIGHT) * 1.8 + 1.8 ≤ t →
      calculateSpiralConstruction finalPos t = (finalPos, 1) := by
  obtain ⟨fx, fy, fz⟩ := finalPos
  simp only [TREE_HEIGHT] at hy ⊢
  have hnh : 0 ≤ (fy + 18 / 2) / 18 := by positivity
  constructor
  · simp only [calculateSpiralConstruction, TREE_HEIGHT]
    have hp0 : (0 - (fy + 18 / 2) / 18 * 1.8) / 1.8 = -((fy + 18 / 2) / 18) := by
      ring
    split_ifs with h1 h2
    · rfl
    · exfalso
      rw [hp0] at h2
      linarith
    · rw [hp0]
      push_neg at h1
      rw [hp0] at h1
      have hnh0 : (fy + 18 / 2) / 18 = 0 := le_antisymm (by linarith) hnh
      rw [hnh0]
      norm_num [cubicOut]
  · intro t ht
    have hp1 : 1 ≤ (t - (fy + 18 / 2) / 18 * 1.8) / 1.8 := by
      rw [le_div_iff₀ (by norm_num : (0 : ℝ) < 1.8)]
      linarith
    simp only [calculateSpiralConstruction, TREE_HEIGHT]
    split_ifs with h1 h2
    · exfalso
      linarith
    · rfl
    · have hp : (t - (fy + 18 / 2) / 18 * 1.8) / 1.8 = 1 :=
        le_antisymm (not_lt.mp h2) hp1
      rw [hp]
      have hease : cubicOut 1 = 1 := by norm_num [cubicOut]
      rw [hease]
      have hx := sqrt_mul_cos_atan2 fx fz
      have hz := sqrt_mul_sin_atan2 fx fz
      norm_num
      exact ⟨hx, hz⟩

/-- C5 witness: the top-star tree position `(0, 10, 0)` has scale-factor
`0` at time `0` and has arrived exactly (position `(0, 10, 0)`, scale `1`)
at time `5`, which is past its delay-plus-duration window. -/
theorem spiral_construction_witness :
    (calculateSpiralConstruction ⟨0, 10, 0⟩ 0).2 = 0 ∧
    calculateSpiralConstruction ⟨0, 10, 0⟩ 5 = (⟨0, 10, 0⟩, 1) := by
  have h := spiral_construction_endpoints ⟨0, 10, 0⟩
    (by norm_num [TREE_HEIGHT])
  exact ⟨h.1, h.2 5 (by norm_num [TREE_HEIGHT])⟩

/-- C8: per frame, the number of active/drawn stardust elements (passed to
`setDrawRange` and used as the update-loop bound) is
`Math.floor(STARDUST_COUNT * density)`; for density in `[0, 1]` it equals
the natural floor of `12000 * density`, never exceeds the pool size, and
at density `1/2` it is exactly `6000`. -/
theorem stardust_active_count (mode : AppMode) (density : ℚ) (time delta : ℝ)
    (targetTree targetScatter pos : ℕ → Vec3)
    (hd0 : 0 ≤ density) (hd1 : density ≤ 1) :
    (stardustFrame mode density time delta targetTree targetScatter pos).2 =
      ⌊(STARDUST_COUNT : ℚ) * density⌋₊ ∧
    (stardustFrame mode density time delta targetTree targetScatter pos).2 ≤
      STARDUST_COUNT ∧
    (density = 1 / 2 →
      (stardustFrame mode density time delta targetTree targetScatter pos).2 =
        6000) := by
  have hfloor :
      (stardustFrame mode density time delta targetTree targetScatter pos).2 =
        ⌊(STARDUST_COUNT : ℚ) * density⌋₊ := by
    simp only [stardustFrame]
    exact Int.floor_toNat _
  refine ⟨hfloor, ?_, ?_⟩
  · rw [hfloor]
    calc ⌊(STARDUST_COUNT : ℚ) * density⌋₊
        ≤ ⌊(STARDUST_COUNT : ℚ)⌋₊ := by
          apply Nat.floor_le_floor
          nlinarith [(by positivity : (0 : ℚ) ≤ (STARDUST_COUNT : ℚ))]
      _ = STARDUST_COUNT := Nat.floor_natCast _
  · intro hhalf
    rw [hfloor, hhalf, STARDUST_COUNT]
    norm_num

/-- C8 witness: at density `1/2` the drawn stardust count is `6000`. -/
theorem stardust_active_count_witness :
    (stardustFrame AppMode.TREE (1 / 2) 0 0 (fun _ => ⟨0, 0, 0⟩)
        (fun _ => ⟨0, 0, 0⟩) (fun _ => ⟨0, 0, 0⟩)).2 = 6000 :=
  (stardust_active_count AppMode.TREE (1 / 2) 0 0 _ _ _
    (by norm_num) (by norm_num)).2.2 rfl

/-- C6 counterexample: at density `1/2` the stardust element with index
`6000` (the first inactive index) is not touched by the frame update: its
stored position stays at `(0, -20, 0)` even though the scatter target it
is supposed to converge to is the distinct point `(0, 0, 0)` — so inactive
elements are not simulated toward the mode target. -/
theorem inactive_stardust_counterexample :
    (stardustFrame AppMode.SCATTER (1 / 2) 5 (1 / 60) (fun _ => ⟨0, 0, 0⟩)
        (fun _ => ⟨0, 0, 0⟩) (fun _ => ⟨0, -20, 0⟩)).1 6000 = ⟨0, -20, 0⟩ ∧
    (⟨0, -20, 0⟩ : Vec3) ≠ ⟨0, 0, 0⟩ := by
  constructor
  · have hcount : ((⌊(STARDUST_COUNT : ℚ) * (1 / 2)⌋).toNat) = 6000 := by
      rw [STARDUST_COUNT]
      norm_num
      decide
    simp only [stardustFrame, hcount]
    norm_num
  · intro h
    rw [Vec3.mk.injEq] at h
    norm_num at h

/-- C6 (amended): elements whose index is at or beyond the active count
`floor(poolSize * density)` are left untouched by the per-frame update loop
— their stored positions stay unchanged that frame (they are not simulated
while inactive), for both the stardust pool and the bulb pool. -/
theorem inactive_elements_unchanged (mode : AppMode) (density : ℚ)
    (time delta : ℝ) (targetTree targetScatter pos bulbTree bulbScatter
      bulbPos : ℕ → Vec3) (i j : ℕ)
    (hi : (stardustFrame mode density time delta targetTree targetScatter
      pos).2 ≤ i)
    (hj : (bulbFrame mode density time delta bulbTree bulbScatter
      bulbPos).2 ≤ j) :
    (stardustFrame mode density time delta targetTree targetScatter pos).1 i =
      pos i ∧
    (bulbFrame mode density time delta bulbTree bulbScatter bulbPos).1 j =
      bulbPos j := by
  simp only [stardustFrame, bulbFrame] at hi hj ⊢
  rw [if_neg (not_lt.mpr hi), if_neg (not_lt.mpr hj)]
  exact ⟨rfl, rfl⟩

/-- C6 amended-claim witness: at density `1/2`, stardust index `6000` and
bulb index `150` are inactive and keep their stored positions. -/
theorem inactive_elements_witness :
    (stardustFrame AppMode.SCATTER (1 / 2) 5 (1 / 60) (fun _ => ⟨0, 0, 0⟩)
        (fun _ => ⟨0, 0, 0⟩) (fun _ => ⟨0, -20, 0⟩)).1 6000 = ⟨0, -20, 0⟩ ∧
    (bulbFrame AppMode.SCATTER (1 / 2) 5 (1 / 60) (fun _ => ⟨0, 0, 0⟩)
        (fun _ => ⟨0, 0, 0⟩) (fun _ => ⟨0, -20, 0⟩)).1 150 = ⟨0, -20, 0⟩ := by
  have h := inactive_elements_unchanged AppMode.SCATTER (1 / 2) 5 (1 / 60)
    (fun _ => ⟨0, 0, 0⟩) (fun _ => ⟨0, 0, 0⟩) (fun _ => ⟨0, -20, 0⟩)
    (fun _ => ⟨0, 0, 0⟩) (fun _ => ⟨0, 0, 0⟩) (fun _ => ⟨0, -20, 0⟩)
    6000 150 ?_ ?_
  · exact h
  · simp only [stardustFrame, STARDUST_COUNT]
    norm_num
  · simp only [bulbFrame, BULB_COUNT]
    norm_num

theorem sqDist3_nonneg (a b : Vec3) : 0 ≤ sqDist3 a b := by
  rw [sqDist3]
  positivity

theorem sqDist3_comm (a b : Vec3) : sqDist3 a b = sqDist3 b a := by
  rw [sqDist3, sqDist3]
  ring

theorem lerpV_sqDist (p t : Vec3) (f : ℝ) :
    sqDist3 (lerpV p t f) t = (1 - f) ^ 2 * sqDist3 p t := by
  simp only [lerpV, sqDist3]
  ring

/-- C7 counterexample: the claim fails for large frame deltas.  A bulb at
`(0, 0, 0)` with target `(1, 0, 0)` is at distance `1 ≤ 10` from its
target, yet one frame with `delta = 2` (lerp factor `3`) moves it to
`(3, 0, 0)`, at distance `2` — strictly farther from the target. -/
theorem lerp_overshoot_counterexample :
    dist3 ⟨0, 0, 0⟩ ⟨1, 0, 0⟩ ≤ 10 ∧
    (bulbFrame AppMode.TREE 1 5 2 (fun _ => ⟨1, 0, 0⟩) (fun _ => ⟨1, 0, 0⟩)
        (fun _ => ⟨0, 0, 0⟩)).1 0 = ⟨3, 0, 0⟩ ∧
    dist3 ⟨0, 0, 0⟩ ⟨1, 0, 0⟩ < dist3 ⟨3, 0, 0⟩ ⟨1, 0, 0⟩ := by
  have d1 : dist3 ⟨0, 0, 0⟩ ⟨1, 0, 0⟩ = 1 := by
    rw [dist3, sqDist3]
    norm_num
  have d2 : dist3 ⟨3, 0, 0⟩ ⟨1, 0, 0⟩ = 2 := by
    rw [dist3, sqDist3]
    norm_num
    rw [show (4 : ℝ) = 2 ^ 2 by norm_num, Real.sqrt_sq (by norm_num : (0 : ℝ) ≤ 2)]
  refine ⟨?_, ?_, ?_⟩
  · rw [d1]
    norm_num
  swap
  · rw [d1, d2]
    norm_num
  have hcount : ((⌊(BULB_COUNT : ℚ) * 1⌋).toNat) = 300 := by
    rw [BULB_COUNT]
    norm_num
    decide
  simp only [bulbFrame, hcount, INTRO_DURATION, stepToward, d1]
  norm_num [lerpV]
  all_goals rw [d1]
  all_goals norm_num

/-- C7 (amended): in steady state, for every frame delta in `[0, 4/3]`
(so the lerp factor `delta * 1.5` stays in `[0, 2]`), one per-element
update never increases the distance to the frame's target, for both the
bulb update (`distanceTo`-guarded) and the stardust update
(squared-distance-guarded); and whenever the distance to the target
exceeds the 10-unit snap threshold, both updates set the position to the
target instantly. -/
theorem steady_update_monotone (p t : Vec3) (delta : ℝ)
    (h0 : 0 ≤ delta) (h1 : delta ≤ 4 / 3) :
    (dist3 p t ≤ 10 →
      dist3 (stepToward p t (delta * 1.5)) t ≤ dist3 p t ∧
      dist3 (stardustStepToward p t (delta * 1.5)) t ≤ dist3 p t) ∧
    (10 < dist3 p t →
      stepToward p t (delta * 1.5) = t ∧
      stardustStepToward p t (delta * 1.5) = t) := by
  have hs := sqDist3_nonneg p t
  have hlerp : dist3 (lerpV p t (delta * 1.5)) t ≤ dist3 p t := by
    rw [dist3, lerpV_sqDist, Real.sqrt_mul (sq_nonneg _), Real.sqrt_sq_eq_abs]
    have habs : |1 - delta * 1.5| ≤ 1 := abs_le.mpr ⟨by linarith, by linarith⟩
    calc |1 - delta * 1.5| * Real.sqrt (sqDist3 p t)
        ≤ 1 * Real.sqrt (sqDist3 p t) := by
          apply mul_le_mul_of_nonneg_right habs (Real.sqrt_nonneg _)
      _ = dist3 p t := by rw [one_mul, dist3]
  constructor
  · intro hnear
    have hsq : ¬ 100 < sqDist3 t p := by
      rw [sqDist3_comm]
      rw [dist3, Real.sqrt_le_iff] at hnear
      push_neg
      calc sqDist3 p t ≤ 10 ^ 2 := hnear.2
        _ = 100 := by norm_num
    have hd : ¬ 10 < dist3 p t := not_lt.mpr hnear
    rw [stepToward, if_neg hd, stardustStepToward, if_neg hsq]
    exact ⟨hlerp, hlerp⟩
  · intro hfar
    have hsq : 100 < sqDist3 t p := by
      rw [sqDist3_comm]
      rw [dist3] at hfar
      have h100 := (Real.lt_sqrt (by norm_num : (0 : ℝ) ≤ 10)).mp hfar
      linarith
    rw [stepToward, if_pos hfar, stardustStepToward, if_pos hsq]
    exact ⟨rfl, rfl⟩

/-- C7 amended-claim witness: with frame delta `1/3`, an element at
distance `1` from its target does not move farther from it. -/
theorem steady_update_witness :
    dist3 ⟨0, 0, 0⟩ ⟨1, 0, 0⟩ ≤ 10 ∧
    dist3 (stepToward ⟨0, 0, 0⟩ ⟨1, 0, 0⟩ ((1 / 3) * 1.5)) ⟨1, 0, 0⟩ ≤
      dist3 ⟨0, 0, 0⟩ ⟨1, 0, 0⟩ := by
  have hd : dist3 ⟨0, 0, 0⟩ ⟨1, 0, 0⟩ ≤ 10 := by
    rw [dist3, sqDist3]
    norm_num
  exact ⟨hd, ((steady_update_monotone ⟨0, 0, 0⟩ ⟨1, 0, 0⟩ (1 / 3)
    (by norm_num) (by norm_num)).1 hd).1⟩

end

end ChristmasTree
